import Mathlib

/-!
Verification of the session state machine and grading orchestration of the
tutoring dialogue orchestrator (source: `agents.py`, data model `models.py`,
store accessors `database.py`).

The embedding models the core faithfully:
* pure Python functions become Lean functions;
* the in-memory stores (question store, session store, per-session
  live-question map) are passed as explicit state;
* the generative text service and the JSON extraction of its grading reply
  are external collaborators and enter as an oracle record `Gen`
  (the structured-parse outcome is `Gen.llmEval`; `none` means no valid
  JSON block parsed, which triggers the deterministic fallback);
* `random.choice` over a nonempty list is modelled by an oracle index
  `Gen.choiceIdx`, reduced modulo the list length;
* Python tuple returns that cross the `evaluate_answer` call boundary are
  modelled as `List PyVal`, and tuple unpacking as `unpack3` / `unpack4`,
  which raise `ValueError` on an arity mismatch exactly as Python does;
* fallible code returns `Except String`.
-/

/-! ## Data model (`models.py`) -/

inductive Subject
  | chinese
  | math
  | english
  | history
  | politics
deriving DecidableEq, Repr

inductive QuestionType
  | choice
  | judgment
  | qa
  | fill
  | application
deriving DecidableEq, Repr

inductive GradeLevel
  | A
  | B
  | C
deriving DecidableEq, Repr

inductive SessionState
  | learning
  | assessing
  | transfer_test
  | mastered
  | remediation
deriving DecidableEq, Repr

/-- The `Question` record (`models.py`).  Fields not consulted by the core
control flow (timestamps) are omitted. -/
structure Question where
  id : String
  subject : Subject
  topic_id : String
  topic_name : String
  question_type : QuestionType
  difficulty : Nat
  content : String
  options : Option (List String)
  correct_answer : String
  explanation : String
  is_transfer : Bool
deriving DecidableEq, Repr

/-- The `Session` record (`models.py`).  Message log entries are (role, content)
pairs; timestamps are omitted. -/
structure Session where
  id : String
  student_id : String
  subject : Subject
  topic_id : Option String
  state : SessionState
  current_grade : GradeLevel
  consecutive_failures : Nat
  messages : List (String × String)
deriving DecidableEq, Repr

/-- Per-turn result dictionary built by the phase handlers
(`response` / `state` / `grade` / `is_question` / `question` / `mastered`). -/
structure TurnResult where
  response : String
  state : SessionState
  grade : GradeLevel
  is_question : Bool
  question : Option Question
  mastered : Bool
deriving DecidableEq, Repr

/-- The live-question map `_current_question_by_session` (session id to the
question currently posed), modelled as an association list with dictionary
lookup/update semantics. -/
abbrev QMap := List (String × Question)

/-- The session store `db.sessions` (session id to session). -/
abbrev Store := List (String × Session)

/-- Structured grading payload extracted from the generative reply: the first
JSON block that parses and carries the required `is_correct` / `grade` /
`feedback` fields, with the optional error fields.  String coercions
(`str(...)`) performed by `evaluate_answer` are folded into the fields. -/
structure ParsedEval where
  is_correct : Bool
  grade : String
  feedback : String
  error_type : Option String
  error_description : Option String
  improvement_suggestion : Option String
deriving DecidableEq, Repr

/-- Oracle for the external collaborators consumed during one turn: the
generative text service outputs (teaching text, hint text, remediation text,
raw grading reply), the structured-parse outcome of the grading reply
(`llmEval = none` means no valid JSON block was found, triggering the
deterministic fallback), and the RNG draw used by `random.choice`. -/
structure Gen where
  teachText : String
  hintsText : String
  remediationText : String
  llmEval : Option ParsedEval
  llmRaw : String
  choiceIdx : Nat
deriving DecidableEq, Repr

/-- Content store (`database.py`): the question table and the
(subject, topic id, topic name) pairs that `get_topics_by_subject` derives
from the knowledge table.  Knowledge items themselves feed only the
generative context and carry no core control flow, so only their topic
projection is kept. -/
structure DB where
  questions : List Question
  topics : List (Subject × String × String)

/-! ## String primitives mirroring the Python operations used -/

/-- Whether `needle` occurs as a contiguous sublist of `hay` (Python `needle in hay`
on strings; the empty needle matches everything, as in Python). -/
def hasSubstr : List Char → List Char → Bool
  | [], needle => needle.isEmpty
  | h :: t, needle => needle.isPrefixOf (h :: t) || hasSubstr t needle

/-- Python `needle in hay` for strings. -/
def strContains (hay needle : String) : Bool :=
  hasSubstr hay.data needle.data

/-- Python `s.lower()` (ASCII case folding; the cased characters appearing
in the embedded vocabularies and inputs are ASCII, the rest — e.g. the
Chinese tokens — are unaffected by lowering on both sides). -/
def pyLower (s : String) : String :=
  String.mk (s.data.map Char.toLower)

/-- Python `s.upper()` (ASCII case folding, as for `pyLower`). -/
def pyUpper (s : String) : String :=
  String.mk (s.data.map Char.toUpper)

/-- Python `s.strip()`: drop whitespace from both ends. -/
def pyStrip (s : String) : String :=
  String.mk (((s.data.dropWhile Char.isWhitespace).reverse.dropWhile Char.isWhitespace).reverse)

/-- Helper of `pySplitWs`: accumulate the current word (reversed) while
scanning. -/
def splitWsAux : List Char → List Char → List String
  | [], acc => if acc.isEmpty then [] else [String.mk acc.reverse]
  | c :: rest, acc =>
    if c.isWhitespace then
      if acc.isEmpty then splitWsAux rest []
      else String.mk acc.reverse :: splitWsAux rest []
    else splitWsAux rest (c :: acc)

/-- Python `s.split()` with no argument: split on whitespace runs, never
producing empty fields. -/
def pySplitWs (s : String) : List String :=
  splitWsAux s.data []

/-- Python truthiness of an optional string (`None` and `""` are falsy). -/
def truthy : Option String → Bool
  | none => false
  | some s => s != ""

/-! ## Store accessors (`database.py`) -/

def get_questions_by_subject (db : DB) (subject : Subject) : List Question :=
  db.questions.filter (fun q => q.subject == subject)

def get_questions_by_topic (db : DB) (subject : Subject) (topic_id : String) : List Question :=
  db.questions.filter (fun q => q.subject == subject && q.topic_id == topic_id)

def get_transfer_questions (db : DB) (subject : Subject) (topic_id : String) : List Question :=
  db.questions.filter (fun q => q.subject == subject && q.topic_id == topic_id && q.is_transfer)

def get_topics_by_subject (db : DB) (subject : Subject) : List (String × String) :=
  (db.topics.filter (fun t => t.1 == subject)).map (fun t => t.2)

/-- Model of `db.update_session`: dictionary write of the session under its id. -/
def update_session (store : Store) (session : Session) : Store :=
  (session.id, session) :: store.filter (fun p => p.1 != session.id)

/-! ## Grading Interpreter (`AssessmentAgent`) -/

/-- The affirmative vocabulary of the judgment-question fallback
(`_simple_check`). -/
def correct_keywords : List String := ["正确", "对", "true", "yes", "√"]

/-- The negative vocabulary of the judgment-question fallback. -/
def wrong_keywords : List String := ["错误", "错", "false", "no", "×"]

/-- Model of `AssessmentAgent._simple_check`: the deterministic fallback used when no
structured grading result parses.  The open/fill branch compares
`matches >= len(keywords) * 0.5`; for integer `matches` and list length this
float comparison is exactly `2 * matches ≥ len(keywords)`. -/
def simple_check (question : Question) (answer : String) : Bool :=
  let correct := pyStrip (pyLower question.correct_answer)
  let student := pyStrip (pyLower answer)
  match question.question_type with
  | .choice => strContains student correct || strContains correct student
  | .judgment =>
    if correct_keywords.contains correct then
      correct_keywords.any (fun k => strContains student k)
    else
      wrong_keywords.any (fun k => strContains student k)
  | _ =>
    let keywords := (pySplitWs correct).filter (fun k => k != "")
    if keywords.isEmpty then false
    else
      let matchCount := (keywords.filter (fun k => strContains student k)).length
      decide (2 * matchCount ≥ keywords.length)

/-- Grade-string normalization in `evaluate_answer`:
`GradeLevel(grade_str) if grade_str in ["A","B","C"] else GradeLevel.C`
applied to the stripped upper-cased grade string. -/
def normalize_grade (s : String) : GradeLevel :=
  let g := pyUpper (pyStrip s)
  if g = "A" then .A else if g = "B" then .B else if g = "C" then .C else .C

/-- The four components returned by `AssessmentAgent.evaluate_answer`. -/
structure EvalOut where
  is_correct : Bool
  grade : GradeLevel
  feedback : String
  error_type : Option String
deriving DecidableEq, Repr

/-- Model of `AssessmentAgent.evaluate_answer`:  on a successful structured parse
(`gen.llmEval = some r`) normalize the grade, and when incorrect append the
labeled error-description and improvement-suggestion sections; on parse
failure (`gen.llmEval = none`) run the deterministic fallback, grade A when
correct and C otherwise, with the raw generative reply as feedback. -/
def evaluate_answer (question : Question) (student_answer : String) (gen : Gen) : EvalOut :=
  match gen.llmEval with
  | some r =>
    let is_correct := r.is_correct
    let grade := normalize_grade r.grade
    let feedback :=
      if !is_correct then
        let f1 :=
          if truthy r.error_type && truthy r.error_description then
            r.feedback ++ "\n\n📌 错误类型：" ++ r.error_description.getD ""
          else r.feedback
        if truthy r.improvement_suggestion then
          f1 ++ "\n\n💡 改进建议：" ++ r.improvement_suggestion.getD ""
        else f1
      else r.feedback
    { is_correct := is_correct, grade := grade, feedback := feedback,
      error_type := r.error_type }
  | none =>
    let ic := simple_check question student_answer
    { is_correct := ic, grade := if ic then .A else .C, feedback := gen.llmRaw,
      error_type := none }

/-! ## Python tuple boundary

`evaluate_answer` returns a 4-tuple at every return statement.  Its call
sites unpack that tuple; Python checks the arity at runtime and raises
`ValueError` on a mismatch.  The tuple is modelled as a list of tagged
values and the unpacks as `unpack3` / `unpack4`. -/

inductive PyVal
  | bool (b : Bool)
  | grade (g : GradeLevel)
  | str (s : String)
  | ostr (s : Option String)
deriving DecidableEq, Repr

def PyVal.asBool : PyVal → Bool
  | .bool b => b
  | _ => false

def PyVal.asGrade : PyVal → GradeLevel
  | .grade g => g
  | _ => .C

def PyVal.asStr : PyVal → String
  | .str s => s
  | _ => ""

def PyVal.asOptStr : PyVal → Option String
  | .ostr s => s
  | _ => none

/-- Python `a, b, c = t`. -/
def unpack3 : List PyVal → Except String (PyVal × PyVal × PyVal)
  | [a, b, c] => .ok (a, b, c)
  | l =>
    if l.length > 3 then .error "ValueError: too many values to unpack (expected 3)"
    else .error "ValueError: not enough values to unpack (expected 3)"

/-- Python `a, b, c, d = t`. -/
def unpack4 : List PyVal → Except String (PyVal × PyVal × PyVal × PyVal)
  | [a, b, c, d] => .ok (a, b, c, d)
  | l =>
    if l.length > 4 then .error "ValueError: too many values to unpack (expected 4)"
    else .error "ValueError: not enough values to unpack (expected 4)"

/-- The tuple value actually returned by `evaluate_answer` across the call
boundary: `(is_correct, grade, feedback, error_type)` — four elements on
every return path. -/
def evaluate_answer_tuple (question : Question) (student_answer : String) (gen : Gen) : List PyVal :=
  let r := evaluate_answer question student_answer gen
  [PyVal.bool r.is_correct, PyVal.grade r.grade, PyVal.str r.feedback, PyVal.ostr r.error_type]

/-! ## Intent Classifier (`LearningAgent._wants_practice` / `_wants_hint`) -/

def wants_practice (message : String) : Bool :=
  let m := pyLower message
  ["练习", "做题", "测试", "出题", "考考我", "quiz", "test", "practice"].any
    (fun k => strContains m k)

def wants_hint (message : String) : Bool :=
  let m := pyLower message
  ["给我提示", "提示", "hint", "给点提示", "来点提示", "不会", "思路", "怎么做"].any
    (fun k => strContains m k)

/-! ## Question Selector / live-question binding -/

/-- Model of `LearningAgent._remember_current_question`: store the question under the
session id; a falsy (empty) id is not stored. -/
def remember_current_question (qmap : QMap) (session : Session) (question : Question) : QMap :=
  if session.id = "" then qmap
  else (session.id, question) :: qmap.filter (fun p => p.1 != session.id)

/-- Model of `LearningAgent._get_current_question`: look up the live question; when
`want_transfer` is given, a question whose transfer flag disagrees with it is
treated as absent. -/
def get_current_question (qmap : QMap) (session : Session) (want_transfer : Option Bool) :
    Option Question :=
  if session.id = "" then none
  else
    match List.lookup session.id qmap with
    | none => none
    | some q =>
      match want_transfer with
      | none => some q
      | some w => if q.is_transfer = w then some q else none

/-- Question type display names. -/
def type_name : QuestionType → String
  | .choice => "选择题"
  | .judgment => "判断题"
  | .qa => "问答题"
  | .fill => "填空题"
  | .application => "应用题"

/-- Python `s * n` for strings. -/
def repeatStr (s : String) : Nat → String
  | 0 => ""
  | n + 1 => s ++ repeatStr s n

/-- Model of `LearningAgent._format_question`: difficulty rendered as a repeated star
glyph (`difficulty or 1` maps a zero difficulty to 1), options listed in
order when the option list is truthy (present and nonempty). -/
def format_question (question : Question) : String :=
  let difficulty := if question.difficulty = 0 then 1 else question.difficulty
  let text := "【" ++ type_name question.question_type ++ "】难度：" ++
    repeatStr "⭐" difficulty ++ "\n\n" ++ question.content ++ "\n"
  match question.options with
  | some opts =>
    if opts.isEmpty then text
    else text ++ "\n" ++ String.join (opts.map (fun o => o ++ "\n"))
  | none => text

/-! ## Phase Handlers (`LearningAgent`) -/

/-- The non-transfer question pool queried by `_start_assessment`:
questions for the session's topic (or the whole subject when the topic id
is falsy), with transfer-flagged questions filtered out. -/
def assessment_pool (db : DB) (session : Session) : List Question :=
  let questions :=
    match session.topic_id with
    | some tid =>
      if tid != "" then get_questions_by_topic db session.subject tid
      else get_questions_by_subject db session.subject
    | none => get_questions_by_subject db session.subject
  questions.filter (fun q => !q.is_transfer)

/-- Model of `LearningAgent._start_assessment`: non-transfer questions for the
session's topic (or the whole subject when the topic id is falsy); empty
pool keeps the Learning phase; otherwise a random member is bound as the
assessment live question. -/
def start_assessment (db : DB) (gen : Gen) (qmap : QMap) (session : Session) :
    TurnResult × Session × QMap :=
  match assessment_pool db session with
  | [] =>
    ({ response := "📚 当前主题暂无练习题，让我们继续学习吧！",
       state := .learning, grade := session.current_grade,
       is_question := false, question := none, mastered := false }, session, qmap)
  | q0 :: rest =>
    let qs := q0 :: rest
    let question := qs.getD (gen.choiceIdx % qs.length) q0
    let qmap := remember_current_question qmap session question
    ({ response := "📝 好的，让我们来做一道练习题！\n\n" ++ format_question question ++
         "\n\n请输入你的答案（需要提示就说“给我提示”）：",
       state := .assessing, grade := session.current_grade,
       is_question := true, question := some question, mastered := false }, session, qmap)

/-- The transfer-question pool queried by `_start_transfer_test`: transfer
questions for the session's topic, or the subject's transfer-flagged
questions when the topic id is falsy. -/
def transfer_pool (db : DB) (session : Session) : List Question :=
  match session.topic_id with
  | some tid =>
    if tid != "" then get_transfer_questions db session.subject tid
    else (get_questions_by_subject db session.subject).filter (fun q => q.is_transfer)
  | none => (get_questions_by_subject db session.subject).filter (fun q => q.is_transfer)

/-- Model of `LearningAgent._start_transfer_test`: transfer questions for the topic
(or the subject's transfer-flagged questions when the topic id is falsy);
empty pool goes directly to Mastered with `mastered := true`; otherwise a
random member is bound as the transfer live question. -/
def start_transfer_test (db : DB) (gen : Gen) (qmap : QMap) (session : Session)
    (prev_feedback : String) : TurnResult × Session × QMap :=
  match transfer_pool db session with
  | [] =>
    ({ response := prev_feedback ++ "\n\n🎊 太棒了！你已经掌握了这个知识点！\n\n想要学习其他内容吗？",
       state := .mastered, grade := .A,
       is_question := false, question := none, mastered := true }, session, qmap)
  | q0 :: rest =>
    let qs := q0 :: rest
    let question := qs.getD (gen.choiceIdx % qs.length) q0
    let qmap := remember_current_question qmap session question
    ({ response := prev_feedback ++
         "\n\n---\n\n🚀 **迁移测试**\n\n你对基础知识掌握得很好！现在挑战一道应用题，看看你能否举一反三：\n\n" ++
         format_question question ++ "\n\n请认真思考后作答（需要提示就说“给我提示”）：",
       state := .transfer_test, grade := .A,
       is_question := true, question := some question, mastered := false }, session, qmap)

/-- Model of `LearningAgent._handle_learning`: a practice intent starts an
assessment; otherwise the first topic whose (truthy) name or id occurs in
the message is recorded on the session and a generative teaching reply is
produced. -/
def handle_learning (db : DB) (gen : Gen) (qmap : QMap) (session : Session)
    (user_message : String) : TurnResult × Session × QMap :=
  if wants_practice user_message then start_assessment db gen qmap session
  else
    let topics := get_topics_by_subject db session.subject
    let session :=
      match topics.find? (fun t =>
          (t.2 != "" && strContains user_message t.2) ||
          (t.1 != "" && strContains user_message t.1)) with
      | some t => { session with topic_id := some t.1 }
      | none => session
    ({ response := gen.teachText, state := .learning, grade := session.current_grade,
       is_question := false, question := none, mastered := false }, session, qmap)

/-- Model of `LearningAgent._handle_assessment`: redirect to Learning when no
assessment live question is bound; serve hints on a hint intent; otherwise
unpack the 4-tuple from `evaluate_answer` (matching arity at this call
site), reset the failure counter and either start the transfer test (grade
A) or return to Learning on a correct answer, and on an incorrect answer
increment the failure counter, entering Remediation with grade C once it
reaches 3. -/
def handle_assessment (db : DB) (gen : Gen) (qmap : QMap) (session : Session)
    (user_message : String) : Except String (TurnResult × Session × QMap) :=
  match get_current_question qmap session (some false) with
  | none =>
    .ok ({ response := "未找到当前题目，我们重新开始一题练习吧。回复“出题/练习”即可。",
           state := .learning, grade := session.current_grade,
           is_question := false, question := none, mastered := false }, session, qmap)
  | some question =>
    if wants_hint user_message then
      .ok ({ response := gen.hintsText ++ "\n\n你可以继续作答：",
             state := .assessing, grade := session.current_grade,
             is_question := true, question := some question, mastered := false }, session, qmap)
    else
      match unpack4 (evaluate_answer_tuple question user_message gen) with
      | .error e => .error e
      | .ok (a, b, c, _d) =>
        let is_correct := a.asBool
        let grade := b.asGrade
        let feedback := c.asStr
        let session := { session with current_grade := grade }
        if is_correct then
          let session := { session with consecutive_failures := 0 }
          if grade = .A then
            .ok (start_transfer_test db gen qmap session feedback)
          else
            .ok ({ response := feedback ++ "\n\n继续努力！你想继续学习还是做更多练习？",
                   state := .learning, grade := grade,
                   is_question := false, question := none, mastered := false }, session, qmap)
        else
          let session := { session with consecutive_failures := session.consecutive_failures + 1 }
          if 3 ≤ session.consecutive_failures then
            .ok ({ response := feedback ++ "\n\n---\n\n🔄 让我换一种方式来帮助你理解：\n\n" ++
                     gen.remediationText,
                   state := .remediation, grade := .C,
                   is_question := false, question := none, mastered := false }, session, qmap)
          else
            .ok ({ response := feedback ++ "\n\n别灰心！你可以继续作答，或者说“给我提示”。",
                   state := .assessing, grade := grade,
                   is_question := true, question := some question, mastered := false }, session, qmap)

/-- Model of `LearningAgent._handle_transfer_test`: redirect to Learning when no
transfer live question is bound; serve hints on a hint intent; otherwise
unpack the 4-tuple from `evaluate_answer` into THREE targets — the arity
mismatch present in the source at this call site, which raises
`ValueError` — and, were the unpack to succeed, pass on correct / grade A
or B to Mastered and fall back to Learning with grade B otherwise. -/
def handle_transfer_test (db : DB) (gen : Gen) (qmap : QMap) (session : Session)
    (user_message : String) : Except String (TurnResult × Session × QMap) :=
  match get_current_question qmap session (some true) with
  | none =>
    .ok ({ response := "未找到迁移测试题目，我们先回到学习吧。",
           state := .learning, grade := session.current_grade,
           is_question := false, question := none, mastered := false }, session, qmap)
  | some question =>
    if wants_hint user_message then
      .ok ({ response := gen.hintsText ++ "\n\n你可以继续作答：",
             state := .transfer_test, grade := session.current_grade,
             is_question := true, question := some question, mastered := false }, session, qmap)
    else
      match unpack3 (evaluate_answer_tuple question user_message gen) with
      | .error e => .error e
      | .ok (a, b, c) =>
        let is_correct := a.asBool
        let grade := b.asGrade
        let feedback := c.asStr
        if is_correct || [GradeLevel.A, GradeLevel.B].contains grade then
          .ok ({ response := "🎊 **恭喜！迁移测试通过！**\n\n" ++ feedback ++
                   "\n\n✅ 你已经真正掌握了这个知识点！\n\n想继续学习其他内容吗？",
                 state := .mastered, grade := .A,
                 is_question := false, question := none, mastered := true }, session, qmap)
        else
          .ok ({ response := feedback ++
                   "\n\n迁移测试未通过，没关系！我们回顾一下基础知识再挑战。\n\n你想我从哪部分开始讲？",
                 state := .learning, grade := .B,
                 is_question := false, question := none, mastered := false }, session, qmap)

/-- Model of `LearningAgent._handle_remediation`: reset the failure counter, produce
a generative teaching reply, return to Learning with grade C. -/
def handle_remediation (gen : Gen) (session : Session) : TurnResult × Session :=
  let session := { session with consecutive_failures := 0 }
  ({ response := gen.teachText, state := .learning, grade := .C,
     is_question := false, question := none, mastered := false }, session)

/-- The default result dictionary `process_message` starts from; it is
returned unchanged when the session is in the terminal Mastered state (no
handler branch matches). -/
def init_result (session : Session) : TurnResult :=
  { response := "", state := session.state, grade := session.current_grade,
    is_question := false, question := none, mastered := false }

/-! ## Session Dispatcher (`LearningAgent.process_message`) -/

/-- The state-machine dispatch of `process_message` (its if/elif chain):
exactly one phase handler runs for the session's current phase; in the
terminal Mastered phase no handler matches and the initial default result
is kept. -/
def dispatch (db : DB) (gen : Gen) (qmap : QMap) (session : Session) (user_message : String) :
    Except String (TurnResult × Session × QMap) :=
  match session.state with
  | .learning => .ok (handle_learning db gen qmap session user_message)
  | .assessing => handle_assessment db gen qmap session user_message
  | .transfer_test => handle_transfer_test db gen qmap session user_message
  | .remediation =>
    let (result, session) := handle_remediation gen session
    .ok (result, session, qmap)
  | .mastered => .ok (init_result session, session, qmap)

/-- Model of `LearningAgent.process_message`: append the user message, dispatch on
the session state, append the assistant reply, write the result's state and
grade back onto the session, and persist — swallowing any persistence
failure (`save_fails` models `db.update_session` raising) so the turn
result is still returned. -/
def process_message (db : DB) (gen : Gen) (store : Store) (qmap : QMap) (session : Session)
    (user_message : String) (save_fails : Bool) :
    Except String (TurnResult × Session × QMap × Store) :=
  match dispatch db gen qmap
      { session with messages := session.messages ++ [("user", user_message)] }
      user_message with
  | .error e => .error e
  | .ok (result, session, qmap) =>
    let session := { session with
      messages := session.messages ++ [("assistant", result.response)],
      state := result.state, current_grade := result.grade }
    let store := if save_fails then store else update_session store session
    .ok (result, session, qmap, store)

/-- Sequential turns on one session (each with the persistence write
succeeding), threading the session, live-question map and store. -/
def runTurns (db : DB) : List (String × Gen) → Store → QMap → Session →
    Except String (Session × QMap × Store)
  | [], store, qmap, session => .ok (session, qmap, store)
  | (msg, gen) :: rest, store, qmap, session =>
    match process_message db gen store qmap session msg false with
    | .error e => .error e
    | .ok (_, session, qmap, store) => runTurns db rest store qmap session

/-! ## Projections of a turn outcome (used to state concrete facts) -/

def turn_state (e : Except String (TurnResult × Session × QMap × Store)) : Option SessionState :=
  e.toOption.map (fun o => o.1.state)

def turn_grade (e : Except String (TurnResult × Session × QMap × Store)) : Option GradeLevel :=
  e.toOption.map (fun o => o.1.grade)

def turn_is_question (e : Except String (TurnResult × Session × QMap × Store)) : Option Bool :=
  e.toOption.map (fun o => o.1.is_question)

def turn_mastered (e : Except String (TurnResult × Session × QMap × Store)) : Option Bool :=
  e.toOption.map (fun o => o.1.mastered)

def post_failures (e : Except String (TurnResult × Session × QMap × Store)) : Option Nat :=
  e.toOption.map (fun o => o.2.1.consecutive_failures)

/-! ## The failure-counter invariant -/

/-- Reachability invariant of the failure counter: it never exceeds 3, and
outside the Remediation phase it never exceeds 2 (a session showing 3 is
exactly a session that has just entered Remediation and whose counter is
cleared on its next turn). -/
def FailureInv (session : Session) : Prop :=
  session.consecutive_failures ≤ 3 ∧
    (session.state ≠ SessionState.remediation → session.consecutive_failures ≤ 2)

/-- The keyword tokens the open/fill fallback extracts from a question:
whitespace tokens of the lower-cased stripped reference answer (with the
source's redundant empty-token filter). -/
def answer_tokens (q : Question) : List String :=
  (pySplitWs (pyStrip (pyLower q.correct_answer))).filter (fun k => k != "")

/-- The reference tokens that occur as substrings of the (lower-cased,
stripped) student text. -/
def matched_tokens (q : Question) (answer : String) : List String :=
  (answer_tokens q).filter (fun k => strContains (pyStrip (pyLower answer)) k)

/-! ## Shared concrete fixtures for witnesses and counterexamples -/

/-- An oracle whose grading reply carries no parseable JSON block, so the
deterministic fallback decides. -/
def genFallback : Gen :=
  { teachText := "好的，我们来讲讲分数。", hintsText := "【解题提示】提示1…",
    remediationText := "🔄 补救学习计划…", llmEval := none,
    llmRaw := "这是无法解析的原始评语", choiceIdx := 0 }

/-- A non-transfer judgment question whose reference answer is the
affirmative token 对. -/
def judgmentQ : Question :=
  { id := "q-j1", subject := .math, topic_id := "t1", topic_name := "分数",
    question_type := .judgment, difficulty := 2, content := "1/2 大于 1/3，对吗？",
    options := none, correct_answer := "对", explanation := "通分比较即可。",
    is_transfer := false }

/-- A non-transfer open question with a three-token reference answer. -/
def openQ : Question :=
  { id := "q-o1", subject := .math, topic_id := "t1", topic_name := "分数",
    question_type := .qa, difficulty := 3, content := "说说通分的步骤。",
    options := none, correct_answer := "alpha beta gamma", explanation := "见教材。",
    is_transfer := false }

/-- A transfer-flagged application question. -/
def transferQ : Question :=
  { id := "q-t1", subject := .math, topic_id := "t1", topic_name := "分数",
    question_type := .application, difficulty := 4, content := "应用题：分蛋糕。",
    options := none, correct_answer := "对", explanation := "迁移应用。",
    is_transfer := true }

/-- The judgment question of the C2 scenario: reference answer `"correct"`. -/
def c2_question : Question :=
  { id := "q-c2", subject := .english, topic_id := "t2", topic_name := "judgment",
    question_type := .judgment, difficulty := 1, content := "Judge the statement.",
    options := none, correct_answer := "correct", explanation := "expl",
    is_transfer := false }

/-- A judgment question whose reference answer 对的 is not itself an
affirmative vocabulary token but CONTAINS the token 对. -/
def c10_question : Question :=
  { id := "q-c10", subject := .math, topic_id := "t1", topic_name := "分数",
    question_type := .judgment, difficulty := 1, content := "判断题。",
    options := none, correct_answer := "对的", explanation := "expl",
    is_transfer := false }

/-- Content store with one topic holding two assessment questions and one
transfer question. -/
def dbSample : DB :=
  { questions := [judgmentQ, openQ, transferQ],
    topics := [(Subject.math, "t1", "分数")] }

/-- Content store with no transfer questions. -/
def dbNoTransfer : DB :=
  { questions := [judgmentQ, openQ],
    topics := [(Subject.math, "t1", "分数")] }

/-- An oracle whose grading reply parses to a structured result with
`is_correct = true` and grade A. -/
def genParsedA : Gen :=
  { teachText := "好的，我们继续。", hintsText := "【解题提示】提示1…",
    remediationText := "🔄 补救学习计划…",
    llmEval := some { is_correct := true, grade := "A", feedback := "完全正确，理解深刻。",
                      error_type := none, error_description := none,
                      improvement_suggestion := none },
    llmRaw := "raw", choiceIdx := 0 }

/-- An oracle whose grading reply parses to a structured result with
`is_correct = true` and grade B. -/
def genParsedB : Gen :=
  { teachText := "好的，我们继续。", hintsText := "【解题提示】提示1…",
    remediationText := "🔄 补救学习计划…",
    llmEval := some { is_correct := true, grade := "B", feedback := "不错，基本正确。",
                      error_type := none, error_description := none,
                      improvement_suggestion := none },
    llmRaw := "raw", choiceIdx := 0 }

/-- Same hint text as `genFallback` but a different grading-parse outcome —
used to show hint turns ignore the Grading Interpreter entirely. -/
def genFallbackAlt : Gen :=
  { genFallback with
    llmEval := some { is_correct := false, grade := "C", feedback := "再想想。",
                      error_type := none, error_description := none,
                      improvement_suggestion := none },
    llmRaw := "另一种原始评语" }

/-- An Assessing-phase session with two consecutive failures already
recorded. -/
def failSession : Session :=
  { id := "s3", student_id := "stu", subject := .math, topic_id := some "t1",
    state := .assessing, current_grade := .C, consecutive_failures := 2,
    messages := [] }

/-- A fresh Assessing-phase session. -/
def assessSession : Session :=
  { id := "s4", student_id := "stu", subject := .math, topic_id := some "t1",
    state := .assessing, current_grade := .C, consecutive_failures := 0,
    messages := [] }

/-- A TransferTest-phase session. -/
def transferSession : Session :=
  { id := "s5", student_id := "stu", subject := .math, topic_id := some "t1",
    state := .transfer_test, current_grade := .A, consecutive_failures := 0,
    messages := [] }

/-- A session that has just entered the Remediation phase (counter at 3). -/
def remSession : Session :=
  { id := "s9", student_id := "stu", subject := .math, topic_id := some "t1",
    state := .remediation, current_grade := .C, consecutive_failures := 3,
    messages := [] }

/-- Placeholder turn outcome used only as a `getD` default. -/
def dummyTurn : TurnResult × Session × QMap × Store :=
  ({ response := "", state := .learning, grade := .C, is_question := false,
     question := none, mastered := false },
   { id := "", student_id := "", subject := .math, topic_id := none,
     state := .learning, current_grade := .C, consecutive_failures := 0,
     messages := [] }, [], [])

/-- The concrete failing-answer turn on `failSession` (counter 2 → 3). -/
def c3_run : Except String (TurnResult × Session × QMap × Store) :=
  process_message dbSample genFallback [] [("s3", judgmentQ)] failSession "考拉" false

/-- Its outcome as a concrete tuple. -/
def c3_out : TurnResult × Session × QMap × Store :=
  c3_run.toOption.getD dummyTurn

/-- The response text of a hint turn. -/
def hint_response (gen : Gen) : String :=
  gen.hintsText ++ "\n\n你可以继续作答："

/-- The session as it stands after a hint turn: only the message log grew;
state and grade are written back unchanged. -/
def hint_session (gen : Gen) (session : Session) (msg : String) : Session :=
  { session with
    messages := (session.messages ++ [("user", msg)]) ++
      [("assistant", hint_response gen)],
    state := session.state, current_grade := session.current_grade }

/-- The turn result of a hint turn: same phase, same grade, the live
question re-posed. -/
def hint_result (gen : Gen) (session : Session) (q : Question) : TurnResult :=
  { response := hint_response gen, state := session.state,
    grade := session.current_grade, is_question := true, question := some q,
    mastered := false }

/-! ## Basic record and helper lemmas -/

theorem state_msgs (session : Session) (m : List (String × String)) :
    ({ session with messages := m }).state = session.state := rfl

theorem id_msgs (session : Session) (m : List (String × String)) :
    ({ session with messages := m }).id = session.id := rfl

theorem grade_msgs (session : Session) (m : List (String × String)) :
    ({ session with messages := m }).current_grade = session.current_grade := rfl

theorem failures_msgs (session : Session) (m : List (String × String)) :
    ({ session with messages := m }).consecutive_failures = session.consecutive_failures := rfl

theorem get_current_question_msgs (qmap : QMap) (session : Session)
    (m : List (String × String)) (w : Option Bool) :
    get_current_question qmap { session with messages := m } w =
      get_current_question qmap session w := rfl

/-- A bound live question forces a truthy (nonempty) session id. -/
theorem get_current_question_id_ne (qmap : QMap) (session : Session) (w : Option Bool)
    (q : Question) (h : get_current_question qmap session w = some q) :
    session.id ≠ "" := by
  intro hid
  unfold get_current_question at h
  rw [if_pos hid] at h
  exact Option.noConfusion h

/-- The unpack of arity four succeeds on the 4-tuple returned by `evaluate_answer`,
recovering its four components. -/
theorem unpack4_evaluate_answer (question : Question) (student_answer : String) (gen : Gen) :
    unpack4 (evaluate_answer_tuple question student_answer gen) =
      .ok (PyVal.bool (evaluate_answer question student_answer gen).is_correct,
           PyVal.grade (evaluate_answer question student_answer gen).grade,
           PyVal.str (evaluate_answer question student_answer gen).feedback,
           PyVal.ostr (evaluate_answer question student_answer gen).error_type) := rfl

/-- The unpack of arity three fails on the 4-tuple returned by `evaluate_answer`: the arity
mismatch raises Python's `ValueError`. -/
theorem unpack3_evaluate_answer (question : Question) (student_answer : String) (gen : Gen) :
    unpack3 (evaluate_answer_tuple question student_answer gen) =
      .error "ValueError: too many values to unpack (expected 3)" := rfl

/-- Every question in the transfer pool carries the transfer flag. -/
theorem transfer_pool_is_transfer (db : DB) (session : Session) (q : Question)
    (h : q ∈ transfer_pool db session) : q.is_transfer = true := by
  unfold transfer_pool at h
  split at h
  · split at h
    · unfold get_transfer_questions at h
      simp only [List.mem_filter, Bool.and_eq_true] at h
      exact h.2.2
    · simp only [List.mem_filter] at h
      exact h.2
  · simp only [List.mem_filter] at h
    exact h.2

/-- Taking `List.getD` with a default drawn from the list stays in the list. -/
theorem getD_mem {α : Type} (l : List α) (i : Nat) (d : α) (hd : d ∈ l) :
    l.getD i d ∈ l := by
  unfold List.getD
  cases h : l.get? i with
  | none => simpa using hd
  | some a =>
    simp only [Option.getD_some]
    exact List.get?_mem h

/-! # Claims -/


/-! ## C2 — judgment fallback on reference answer "correct" -/

/-- C2 counterexample: the claim asserts the fallback yields
`isCorrect = false` for reference answer "correct" and student answer
"wrong, definitely false"; on the code it yields `true` — the code's
affirmative vocabulary (正确/对/true/yes/√) does not contain the English
word "correct", so the fallback takes the negative-vocabulary branch and
the student text contains the negative token "false". -/
theorem c2_counterexample :
    ¬ (simple_check c2_question "wrong, definitely false" = false) := by decide

/-- C2 (amended): for a judgment question whose reference answer is
"correct" — a token absent from the fallback's affirmative vocabulary — the
deterministic fallback classifies the reference into the negative branch and
returns `isCorrect = true` for the student answer "wrong, definitely false",
because that text contains the negative token "false". -/
theorem c2_judgment_correct_reference (q : Question)
    (hty : q.question_type = QuestionType.judgment)
    (href : q.correct_answer = "correct") :
    simple_check q "wrong, definitely false" = true := by
  unfold simple_check
  rw [href, hty]
  decide

/-- C2 witness: the amended theorem applied to the concrete scenario
question. -/
theorem c2_witness :
    c2_question.question_type = QuestionType.judgment ∧
    c2_question.correct_answer = "correct" ∧
    simple_check c2_question "wrong, definitely false" = true :=
  ⟨by decide, by decide, c2_judgment_correct_reference c2_question (by decide) (by decide)⟩

/-! ## C9 — open/fill fallback keyword threshold -/

/-- C9: for open-QA and fill-in questions the deterministic fallback
tokenizes the reference answer on whitespace and accepts exactly when the
reference has at least one token and at least half of its tokens occur as
substrings of the student text; a reference with zero tokens is always
judged incorrect. -/
theorem c9_open_fill_threshold (q : Question) (answer : String)
    (hty : q.question_type = QuestionType.qa ∨ q.question_type = QuestionType.fill) :
    simple_check q answer = true ↔
      answer_tokens q ≠ [] ∧
        (answer_tokens q).length ≤ 2 * (matched_tokens q answer).length := by
  have hpool : answer_tokens q =
      (pySplitWs (pyStrip (pyLower q.correct_answer))).filter (fun k => k != "") := rfl
  rcases hty with h | h <;>
  · unfold simple_check
    rw [h]
    dsimp only
    rw [← hpool]
    unfold matched_tokens
    by_cases he : (answer_tokens q).isEmpty = true
    · rw [if_pos he]
      rw [List.isEmpty_iff] at he
      simp [he]
    · rw [if_neg he]
      rw [List.isEmpty_iff] at he
      simp [he, ge_iff_le]

/-- C9 witness: the theorem applied to a concrete open question with a
three-token reference answer, two of whose tokens occur in the student
text. -/
theorem c9_witness :
    openQ.question_type = QuestionType.qa ∧
    (simple_check openQ "I think alpha and beta hold" = true ↔
      answer_tokens openQ ≠ [] ∧
        (answer_tokens openQ).length ≤
          2 * (matched_tokens openQ "I think alpha and beta hold").length) :=
  ⟨by decide, c9_open_fill_threshold openQ "I think alpha and beta hold" (Or.inl (by decide))⟩

/-! ## C10 — judgment fallback: affirmative reference, substring detection -/

/-- C10 counterexample: classification of the reference answer is NOT
substring-based — it is exact membership in the vocabulary list.  The
reference 对的 contains the affirmative token 对 as a substring, and the
student text 对 contains it too, yet the fallback judges the answer
incorrect (the reference fails exact membership, so the negative branch
runs and finds no negative token).  Under the claim's substring-based
classification it would be judged correct. -/
theorem c10_counterexample :
    correct_keywords.any
        (fun k => strContains (pyStrip (pyLower c10_question.correct_answer)) k) = true ∧
    strContains (pyStrip (pyLower "对")) "对" = true ∧
    simple_check c10_question "对" = false := by decide

/-- C10 (amended): classification of the reference answer is by EXACT
membership in the affirmative vocabulary, while detection in the student
text is substring-based: for every judgment question whose reference answer
(lower-cased, stripped) is exactly an affirmative token, any student text
containing that token as a substring — including negations such as 不对,
which contains the affirmative token 对 — is marked correct. -/
theorem c10_affirmative_substring (q : Question) (student : String)
    (hty : q.question_type = QuestionType.judgment)
    (hmem : pyStrip (pyLower q.correct_answer) ∈ correct_keywords)
    (hsub : strContains (pyStrip (pyLower student)) (pyStrip (pyLower q.correct_answer)) = true) :
    simple_check q student = true := by
  unfold simple_check
  rw [hty]
  dsimp only
  rw [if_pos (by exact List.elem_eq_true_of_mem hmem)]
  exact List.any_eq_true.mpr ⟨pyStrip (pyLower q.correct_answer), hmem, hsub⟩

/-- C10 witness: reference answer 对 with the negated student text 不对,
which contains 对 as a substring and is therefore marked correct. -/
theorem c10_witness :
    judgmentQ.question_type = QuestionType.judgment ∧
    pyStrip (pyLower judgmentQ.correct_answer) ∈ correct_keywords ∧
    strContains (pyStrip (pyLower "不对")) (pyStrip (pyLower judgmentQ.correct_answer)) = true ∧
    simple_check judgmentQ "不对" = true :=
  ⟨by decide, by decide, by decide,
    c10_affirmative_substring judgmentQ "不对" (by decide) (by decide) (by decide)⟩

/-! ## Handler-level reduction lemmas -/

theorem dispatch_learning (db : DB) (gen : Gen) (qmap : QMap) (session : Session)
    (msg : String) (hs : session.state = SessionState.learning) :
    dispatch db gen qmap session msg = .ok (handle_learning db gen qmap session msg) := by
  unfold dispatch
  rw [hs]

theorem dispatch_assessing (db : DB) (gen : Gen) (qmap : QMap) (session : Session)
    (msg : String) (hs : session.state = SessionState.assessing) :
    dispatch db gen qmap session msg = handle_assessment db gen qmap session msg := by
  unfold dispatch
  rw [hs]

theorem dispatch_transfer (db : DB) (gen : Gen) (qmap : QMap) (session : Session)
    (msg : String) (hs : session.state = SessionState.transfer_test) :
    dispatch db gen qmap session msg = handle_transfer_test db gen qmap session msg := by
  unfold dispatch
  rw [hs]

theorem dispatch_remediation (db : DB) (gen : Gen) (qmap : QMap) (session : Session)
    (msg : String) (hs : session.state = SessionState.remediation) :
    dispatch db gen qmap session msg =
      .ok ((handle_remediation gen session).1, (handle_remediation gen session).2, qmap) := by
  unfold dispatch
  rw [hs]

theorem dispatch_mastered (db : DB) (gen : Gen) (qmap : QMap) (session : Session)
    (msg : String) (hs : session.state = SessionState.mastered) :
    dispatch db gen qmap session msg = .ok (init_result session, session, qmap) := by
  unfold dispatch
  rw [hs]

/-- Behaviour of `process_message` when the dispatched handler returns a result:
the assistant reply is appended and the result's state and grade are
written back; the store write is skipped exactly when persistence fails. -/
theorem process_message_ok (db : DB) (gen : Gen) (store : Store) (qmap : QMap)
    (session : Session) (msg : String) (sf : Bool) (r : TurnResult) (s : Session) (qm : QMap)
    (h : dispatch db gen qmap { session with messages := session.messages ++ [("user", msg)] }
          msg = .ok (r, s, qm)) :
    process_message db gen store qmap session msg sf =
      .ok (r,
        { s with
          messages := s.messages ++ [("assistant", r.response)],
          state := r.state, current_grade := r.grade },
        qm,
        if sf then store
        else update_session store
          { s with
            messages := s.messages ++ [("assistant", r.response)],
            state := r.state, current_grade := r.grade }) := by
  unfold process_message
  rw [h]

/-- Behaviour of `process_message` on a handler error: it propagates a handler error (the turn raises). -/
theorem process_message_error (db : DB) (gen : Gen) (store : Store) (qmap : QMap)
    (session : Session) (msg : String) (sf : Bool) (e : String)
    (h : dispatch db gen qmap { session with messages := session.messages ++ [("user", msg)] }
          msg = .error e) :
    process_message db gen store qmap session msg sf = .error e := by
  unfold process_message
  rw [h]

theorem handle_assessment_no_question (db : DB) (gen : Gen) (qmap : QMap) (session : Session)
    (msg : String) (hq : get_current_question qmap session (some false) = none) :
    handle_assessment db gen qmap session msg =
      .ok ({ response := "未找到当前题目，我们重新开始一题练习吧。回复“出题/练习”即可。",
             state := .learning, grade := session.current_grade,
             is_question := false, question := none, mastered := false }, session, qmap) := by
  unfold handle_assessment
  rw [hq]

theorem handle_assessment_hint (db : DB) (gen : Gen) (qmap : QMap) (session : Session)
    (msg : String) (q : Question)
    (hq : get_current_question qmap session (some false) = some q)
    (hh : wants_hint msg = true) :
    handle_assessment db gen qmap session msg =
      .ok ({ response := gen.hintsText ++ "\n\n你可以继续作答：",
             state := .assessing, grade := session.current_grade,
             is_question := true, question := some q, mastered := false }, session, qmap) := by
  unfold handle_assessment
  rw [hq]
  simp only [hh, if_true]

theorem handle_assessment_correct_A (db : DB) (gen : Gen) (qmap : QMap) (session : Session)
    (msg : String) (q : Question)
    (hq : get_current_question qmap session (some false) = some q)
    (hh : wants_hint msg = false)
    (hic : (evaluate_answer q msg gen).is_correct = true)
    (hgr : (evaluate_answer q msg gen).grade = GradeLevel.A) :
    handle_assessment db gen qmap session msg =
      .ok (start_transfer_test db gen qmap
        { session with current_grade := GradeLevel.A, consecutive_failures := 0 }
        (evaluate_answer q msg gen).feedback) := by
  unfold handle_assessment
  rw [hq]
  simp only [hh, Bool.false_eq_true, if_false, unpack4_evaluate_answer]
  dsimp only [PyVal.asBool, PyVal.asGrade, PyVal.asStr, PyVal.asOptStr]
  rw [hic, hgr]
  simp only [if_true]

theorem handle_assessment_correct_notA (db : DB) (gen : Gen) (qmap : QMap) (session : Session)
    (msg : String) (q : Question)
    (hq : get_current_question qmap session (some false) = some q)
    (hh : wants_hint msg = false)
    (hic : (evaluate_answer q msg gen).is_correct = true)
    (hgr : (evaluate_answer q msg gen).grade ≠ GradeLevel.A) :
    handle_assessment db gen qmap session msg =
      .ok ({ response := (evaluate_answer q msg gen).feedback ++
               "\n\n继续努力！你想继续学习还是做更多练习？",
             state := .learning, grade := (evaluate_answer q msg gen).grade,
             is_question := false, question := none, mastered := false },
           { session with
             current_grade := (evaluate_answer q msg gen).grade,
             consecutive_failures := 0 }, qmap) := by
  unfold handle_assessment
  rw [hq]
  simp only [hh, Bool.false_eq_true, if_false, unpack4_evaluate_answer]
  dsimp only [PyVal.asBool, PyVal.asGrade, PyVal.asStr, PyVal.asOptStr]
  rw [hic]
  simp only [if_true, if_neg hgr]

theorem handle_assessment_incorrect (db : DB) (gen : Gen) (qmap : QMap) (session : Session)
    (msg : String) (q : Question)
    (hq : get_current_question qmap session (some false) = some q)
    (hh : wants_hint msg = false)
    (hic : (evaluate_answer q msg gen).is_correct = false) :
    handle_assessment db gen qmap session msg =
      (if 3 ≤ session.consecutive_failures + 1 then
        .ok ({ response := (evaluate_answer q msg gen).feedback ++
                 "\n\n---\n\n🔄 让我换一种方式来帮助你理解：\n\n" ++ gen.remediationText,
               state := .remediation, grade := GradeLevel.C,
               is_question := false, question := none, mastered := false },
             { session with
               current_grade := (evaluate_answer q msg gen).grade,
               consecutive_failures := session.consecutive_failures + 1 }, qmap)
      else
        .ok ({ response := (evaluate_answer q msg gen).feedback ++
                 "\n\n别灰心！你可以继续作答，或者说“给我提示”。",
               state := .assessing, grade := (evaluate_answer q msg gen).grade,
               is_question := true, question := some q, mastered := false },
             { session with
               current_grade := (evaluate_answer q msg gen).grade,
               consecutive_failures := session.consecutive_failures + 1 }, qmap)) := by
  unfold handle_assessment
  rw [hq]
  simp only [hh, Bool.false_eq_true, if_false, unpack4_evaluate_answer]
  dsimp only [PyVal.asBool, PyVal.asGrade, PyVal.asStr, PyVal.asOptStr]
  rw [hic]
  simp only [Bool.false_eq_true, if_false]

theorem handle_transfer_no_question (db : DB) (gen : Gen) (qmap : QMap) (session : Session)
    (msg : String) (hq : get_current_question qmap session (some true) = none) :
    handle_transfer_test db gen qmap session msg =
      .ok ({ response := "未找到迁移测试题目，我们先回到学习吧。",
             state := .learning, grade := session.current_grade,
             is_question := false, question := none, mastered := false }, session, qmap) := by
  unfold handle_transfer_test
  rw [hq]

theorem handle_transfer_hint (db : DB) (gen : Gen) (qmap : QMap) (session : Session)
    (msg : String) (q : Question)
    (hq : get_current_question qmap session (some true) = some q)
    (hh : wants_hint msg = true) :
    handle_transfer_test db gen qmap session msg =
      .ok ({ response := gen.hintsText ++ "\n\n你可以继续作答：",
             state := .transfer_test, grade := session.current_grade,
             is_question := true, question := some q, mastered := false }, session, qmap) := by
  unfold handle_transfer_test
  rw [hq]
  simp only [hh, if_true]

/-- Every answer turn of the transfer-test phase raises: `evaluate_answer`
returns a 4-tuple and the call site unpacks it into three targets. -/
theorem handle_transfer_answer_error (db : DB) (gen : Gen) (qmap : QMap) (session : Session)
    (msg : String) (q : Question)
    (hq : get_current_question qmap session (some true) = some q)
    (hh : wants_hint msg = false) :
    handle_transfer_test db gen qmap session msg =
      .error "ValueError: too many values to unpack (expected 3)" := by
  unfold handle_transfer_test
  rw [hq]
  simp only [hh, Bool.false_eq_true, if_false, unpack3_evaluate_answer]

/-! ## Selector and learning-handler component lemmas -/

theorem start_assessment_session (db : DB) (gen : Gen) (qmap : QMap) (s : Session) :
    (start_assessment db gen qmap s).2.1 = s := by
  unfold start_assessment
  cases h : assessment_pool db s <;> rfl

theorem start_assessment_state (db : DB) (gen : Gen) (qmap : QMap) (s : Session) :
    (start_assessment db gen qmap s).1.state = SessionState.learning ∨
      (start_assessment db gen qmap s).1.state = SessionState.assessing := by
  unfold start_assessment
  cases h : assessment_pool db s
  · exact Or.inl rfl
  · exact Or.inr rfl

theorem start_transfer_test_session (db : DB) (gen : Gen) (qmap : QMap) (s : Session)
    (fb : String) : (start_transfer_test db gen qmap s fb).2.1 = s := by
  unfold start_transfer_test
  cases h : transfer_pool db s <;> rfl

theorem start_transfer_test_state (db : DB) (gen : Gen) (qmap : QMap) (s : Session)
    (fb : String) :
    (start_transfer_test db gen qmap s fb).1.state = SessionState.mastered ∨
      (start_transfer_test db gen qmap s fb).1.state = SessionState.transfer_test := by
  unfold start_transfer_test
  cases h : transfer_pool db s
  · exact Or.inl rfl
  · exact Or.inr rfl

theorem handle_learning_failures (db : DB) (gen : Gen) (qmap : QMap) (s : Session)
    (msg : String) :
    ((handle_learning db gen qmap s msg).2.1).consecutive_failures = s.consecutive_failures := by
  unfold handle_learning
  by_cases hp : wants_practice msg = true
  · simp only [hp, if_true]
    rw [start_assessment_session]
  · simp only [hp, if_false]
    cases h : (get_topics_by_subject db s.subject).find? (fun t =>
        (t.2 != "" && strContains msg t.2) || (t.1 != "" && strContains msg t.1)) <;> rfl

theorem handle_learning_state (db : DB) (gen : Gen) (qmap : QMap) (s : Session)
    (msg : String) :
    (handle_learning db gen qmap s msg).1.state = SessionState.learning ∨
      (handle_learning db gen qmap s msg).1.state = SessionState.assessing := by
  unfold handle_learning
  by_cases hp : wants_practice msg = true
  · simp only [hp, if_true]
    exact start_assessment_state db gen qmap s
  · simp only [hp, if_false]
    cases h : (get_topics_by_subject db s.subject).find? (fun t =>
        (t.2 != "" && strContains msg t.2) || (t.1 != "" && strContains msg t.1)) <;>
      exact Or.inl rfl

/-- The transfer pool depends only on the session's subject and topic. -/
theorem transfer_pool_update (db : DB) (s : Session) (g : GradeLevel) (n : Nat)
    (m : List (String × String)) :
    transfer_pool db
      { s with current_grade := g, consecutive_failures := n, messages := m } =
      transfer_pool db s := rfl

/-- The transfer pool ignores the message log. -/
theorem transfer_pool_msgs (db : DB) (s : Session) (m : List (String × String)) :
    transfer_pool db { s with messages := m } = transfer_pool db s := rfl

theorem start_transfer_test_empty (db : DB) (gen : Gen) (qmap : QMap) (s : Session)
    (fb : String) (h : transfer_pool db s = []) :
    start_transfer_test db gen qmap s fb =
      ({ response := fb ++ "\n\n🎊 太棒了！你已经掌握了这个知识点！\n\n想要学习其他内容吗？",
         state := .mastered, grade := .A,
         is_question := false, question := none, mastered := true }, s, qmap) := by
  unfold start_transfer_test
  rw [h]

theorem start_transfer_test_nonempty (db : DB) (gen : Gen) (qmap : QMap) (s : Session)
    (fb : String) (q0 : Question) (rest : List Question)
    (h : transfer_pool db s = q0 :: rest) :
    start_transfer_test db gen qmap s fb =
      ({ response := fb ++
           "\n\n---\n\n🚀 **迁移测试**\n\n你对基础知识掌握得很好！现在挑战一道应用题，看看你能否举一反三：\n\n" ++
           format_question ((q0 :: rest).getD (gen.choiceIdx % (q0 :: rest).length) q0) ++
           "\n\n请认真思考后作答（需要提示就说“给我提示”）：",
         state := .transfer_test, grade := .A, is_question := true,
         question := some ((q0 :: rest).getD (gen.choiceIdx % (q0 :: rest).length) q0),
         mastered := false }, s,
       remember_current_question qmap s
         ((q0 :: rest).getD (gen.choiceIdx % (q0 :: rest).length) q0)) := by
  unfold start_transfer_test
  rw [h]

/-- One dispatched handler step preserves the invariant, read off the
handler's returned result state and session. -/
theorem dispatch_hinv (db : DB) (gen : Gen) (qmap : QMap) (s : Session) (msg : String)
    (r0 : TurnResult) (s0 : Session) (qm0 : QMap)
    (h3 : s.consecutive_failures ≤ 3)
    (h2 : s.state ≠ SessionState.remediation → s.consecutive_failures ≤ 2)
    (hd : dispatch db gen qmap s msg = .ok (r0, s0, qm0)) :
    s0.consecutive_failures ≤ 3 ∧
      (r0.state ≠ SessionState.remediation → s0.consecutive_failures ≤ 2) := by
  cases hs : s.state with
  | learning =>
    have h2' : s.consecutive_failures ≤ 2 :=
      h2 (by rw [hs]; exact fun hc => SessionState.noConfusion hc)
    rw [dispatch_learning db gen qmap s msg hs] at hd
    simp only [Except.ok.injEq] at hd
    have hf := handle_learning_failures db gen qmap s msg
    rw [hd] at hf
    simp only at hf
    exact ⟨by omega, fun _ => by omega⟩
  | assessing =>
    have h2' : s.consecutive_failures ≤ 2 :=
      h2 (by rw [hs]; exact fun hc => SessionState.noConfusion hc)
    rw [dispatch_assessing db gen qmap s msg hs] at hd
    cases hq : get_current_question qmap s (some false) with
    | none =>
      rw [handle_assessment_no_question db gen qmap s msg hq] at hd
      simp only [Except.ok.injEq, Prod.mk.injEq] at hd
      obtain ⟨-, hs0, -⟩ := hd
      subst hs0
      exact ⟨by omega, fun _ => h2'⟩
    | some q =>
      by_cases hh : wants_hint msg = true
      · rw [handle_assessment_hint db gen qmap s msg q hq hh] at hd
        simp only [Except.ok.injEq, Prod.mk.injEq] at hd
        obtain ⟨-, hs0, -⟩ := hd
        subst hs0
        exact ⟨by omega, fun _ => h2'⟩
      · have hh' : wants_hint msg = false := by simpa using hh
        by_cases hic : (evaluate_answer q msg gen).is_correct = true
        · by_cases hgr : (evaluate_answer q msg gen).grade = GradeLevel.A
          · rw [handle_assessment_correct_A db gen qmap s msg q hq hh' hic hgr] at hd
            simp only [Except.ok.injEq] at hd
            have hsess := start_transfer_test_session db gen qmap
              { s with current_grade := GradeLevel.A, consecutive_failures := 0 }
              (evaluate_answer q msg gen).feedback
            rw [hd] at hsess
            simp only at hsess
            have hzero : s0.consecutive_failures = 0 := by rw [hsess]
            exact ⟨by omega, fun _ => by omega⟩
          · rw [handle_assessment_correct_notA db gen qmap s msg q hq hh' hic hgr] at hd
            simp only [Except.ok.injEq, Prod.mk.injEq] at hd
            obtain ⟨-, hs0, -⟩ := hd
            have hzero : s0.consecutive_failures = 0 := by rw [← hs0]
            exact ⟨by omega, fun _ => by omega⟩
        · have hic' : (evaluate_answer q msg gen).is_correct = false := by simpa using hic
          rw [handle_assessment_incorrect db gen qmap s msg q hq hh' hic'] at hd
          by_cases hcnt : 3 ≤ s.consecutive_failures + 1
          · rw [if_pos hcnt] at hd
            simp only [Except.ok.injEq, Prod.mk.injEq] at hd
            obtain ⟨hr, hs0, -⟩ := hd
            have hsucc : s0.consecutive_failures = s.consecutive_failures + 1 := by rw [← hs0]
            refine ⟨by omega, fun hne => ?_⟩
            exact absurd (by rw [← hr] : r0.state = SessionState.remediation) hne
          · rw [if_neg hcnt] at hd
            simp only [Except.ok.injEq, Prod.mk.injEq] at hd
            obtain ⟨-, hs0, -⟩ := hd
            have hsucc : s0.consecutive_failures = s.consecutive_failures + 1 := by rw [← hs0]
            exact ⟨by omega, fun _ => by omega⟩
  | transfer_test =>
    have h2' : s.consecutive_failures ≤ 2 :=
      h2 (by rw [hs]; exact fun hc => SessionState.noConfusion hc)
    rw [dispatch_transfer db gen qmap s msg hs] at hd
    cases hq : get_current_question qmap s (some true) with
    | none =>
      rw [handle_transfer_no_question db gen qmap s msg hq] at hd
      simp only [Except.ok.injEq, Prod.mk.injEq] at hd
      obtain ⟨-, hs0, -⟩ := hd
      subst hs0
      exact ⟨by omega, fun _ => h2'⟩
    | some q =>
      by_cases hh : wants_hint msg = true
      · rw [handle_transfer_hint db gen qmap s msg q hq hh] at hd
        simp only [Except.ok.injEq, Prod.mk.injEq] at hd
        obtain ⟨-, hs0, -⟩ := hd
        subst hs0
        exact ⟨by omega, fun _ => h2'⟩
      · have hh' : wants_hint msg = false := by simpa using hh
        rw [handle_transfer_answer_error db gen qmap s msg q hq hh'] at hd
        exact Except.noConfusion hd
  | remediation =>
    rw [dispatch_remediation db gen qmap s msg hs] at hd
    simp only [Except.ok.injEq, Prod.mk.injEq] at hd
    obtain ⟨-, hs0, -⟩ := hd
    have hzero : s0.consecutive_failures = 0 := by rw [← hs0]; rfl
    exact ⟨by omega, fun _ => by omega⟩
  | mastered =>
    rw [dispatch_mastered db gen qmap s msg hs] at hd
    simp only [Except.ok.injEq, Prod.mk.injEq] at hd
    obtain ⟨-, hs0, -⟩ := hd
    subst hs0
    exact ⟨h3, fun _ => h2 (by rw [hs]; exact fun hc => SessionState.noConfusion hc)⟩

/-- A full turn preserves the failure-counter invariant. -/
theorem failure_inv_preserved (db : DB) (gen : Gen) (store : Store) (qmap : QMap)
    (session : Session) (msg : String) (sf : Bool)
    (r : TurnResult) (s' : Session) (qm : QMap) (st : Store)
    (hInv : FailureInv session)
    (hok : process_message db gen store qmap session msg sf = .ok (r, s', qm, st)) :
    FailureInv s' := by
  obtain ⟨h3, h2⟩ := hInv
  cases hd : dispatch db gen qmap
      { session with messages := session.messages ++ [("user", msg)] } msg with
  | error e =>
    rw [process_message_error db gen store qmap session msg sf e hd] at hok
    exact Except.noConfusion hok
  | ok t =>
    obtain ⟨r0, s0, qm0⟩ := t
    rw [process_message_ok db gen store qmap session msg sf r0 s0 qm0 hd] at hok
    simp only [Except.ok.injEq, Prod.mk.injEq] at hok
    obtain ⟨hr, hs', -, -⟩ := hok
    subst hr
    have key := dispatch_hinv db gen qmap
      { session with messages := session.messages ++ [("user", msg)] } msg r0 s0 qm0
      (by exact h3) (fun hne => h2 hne) hd
    rw [← hs']
    exact ⟨key.1, fun hne => key.2 hne⟩

/-! ## C1 — transfer-test answer turn raises on tuple unpacking -/

/-- C1: the claim says a TransferTest turn with a bound transfer question, a
non-hint message, and a grading of correct / A / B completes normally with
phase Mastered and `mastered = true`.  On the code this turn never returns:
`evaluate_answer` always returns a 4-tuple while `_handle_transfer_test`
unpacks it into three targets, so the turn raises
`ValueError: too many values to unpack` — shown here at a concrete grading
marked correct with grade B.  (The sibling `_handle_assessment` call site
unpacks the same return into four targets, and `evaluate_answer`'s own type
annotation declares the 4-tuple, so the spec states the intent and the
three-target unpack is the slip.) -/
theorem c1_transfer_answer_raises :
    transferSession.state = SessionState.transfer_test ∧
    get_current_question [("s5", transferQ)] transferSession (some true) = some transferQ ∧
    wants_hint "我的最终答案是B" = false ∧
    (evaluate_answer transferQ "我的最终答案是B" genParsedB).is_correct = true ∧
    (evaluate_answer transferQ "我的最终答案是B" genParsedB).grade = GradeLevel.B ∧
    process_message dbSample genParsedB [] [("s5", transferQ)] transferSession
      "我的最终答案是B" false =
      .error "ValueError: too many values to unpack (expected 3)" := by
  refine ⟨rfl, by decide, by decide, by decide, by decide, ?_⟩
  refine process_message_error dbSample genParsedB [] [("s5", transferQ)] transferSession
    "我的最终答案是B" false _ ?_
  rw [dispatch_transfer _ _ _ _ _ rfl]
  exact handle_transfer_answer_error _ _ _ _ _ transferQ (by decide) (by decide)

/-! ## C3 — failure escalation in the Assessing phase -/

/-- C3: (i) every incorrect-graded Assessing answer turn increments the
failure counter by exactly 1; when the incremented counter reaches 3 the
returned phase is Remediation with grade C, and below 3 the phase stays
Assessing; (ii) every turn preserves the invariant that the counter never
exceeds 3, and never exceeds 2 outside Remediation — so it never exceeds 3
before the transition. -/
theorem c3_failure_escalation :
    (∀ (db : DB) (gen : Gen) (store : Store) (qmap : QMap) (session : Session)
        (msg : String) (sf : Bool) (q : Question),
        session.state = SessionState.assessing →
        get_current_question qmap session (some false) = some q →
        wants_hint msg = false →
        (evaluate_answer q msg gen).is_correct = false →
        ∃ r s' qm st,
          process_message db gen store qmap session msg sf = .ok (r, s', qm, st) ∧
          s'.consecutive_failures = session.consecutive_failures + 1 ∧
          (3 ≤ session.consecutive_failures + 1 →
            r.state = SessionState.remediation ∧ r.grade = GradeLevel.C) ∧
          (session.consecutive_failures + 1 < 3 → r.state = SessionState.assessing)) ∧
    (∀ (db : DB) (gen : Gen) (store : Store) (qmap : QMap) (session : Session)
        (msg : String) (sf : Bool) (r : TurnResult) (s' : Session) (qm : QMap) (st : Store),
        FailureInv session →
        process_message db gen store qmap session msg sf = .ok (r, s', qm, st) →
        FailureInv s') := by
  constructor
  · intro db gen store qmap session msg sf q hs hq hh hic
    have hd := dispatch_assessing db gen qmap
      { session with messages := session.messages ++ [("user", msg)] } msg
      (by rw [state_msgs]; exact hs)
    have ha := handle_assessment_incorrect db gen qmap
      { session with messages := session.messages ++ [("user", msg)] } msg q
      (by rw [get_current_question_msgs]; exact hq) hh hic
    simp only [failures_msgs] at ha
    by_cases h3 : 3 ≤ session.consecutive_failures + 1
    · rw [if_pos h3] at ha
      exact ⟨_, _, _, _, process_message_ok db gen store qmap session msg sf _ _ _
        (hd.trans ha), rfl, fun _ => ⟨rfl, rfl⟩, fun hlt => absurd h3 (by omega)⟩
    · rw [if_neg h3] at ha
      exact ⟨_, _, _, _, process_message_ok db gen store qmap session msg sf _ _ _
        (hd.trans ha), rfl, fun hge => absurd hge h3, fun _ => rfl⟩
  · intro db gen store qmap session msg sf r s' qm st hInv hok
    exact failure_inv_preserved db gen store qmap session msg sf r s' qm st hInv hok

/-- C3 witness: the failing turn on a session with counter 2 (reaching 3 and
entering Remediation with grade C), and the invariant instantiated on the
concrete run. -/
theorem c3_witness :
    (failSession.state = SessionState.assessing ∧
      get_current_question [("s3", judgmentQ)] failSession (some false) = some judgmentQ ∧
      wants_hint "考拉" = false ∧
      (evaluate_answer judgmentQ "考拉" genFallback).is_correct = false ∧
      ∃ r s' qm st,
        process_message dbSample genFallback [] [("s3", judgmentQ)] failSession "考拉" false =
          .ok (r, s', qm, st) ∧
        s'.consecutive_failures = failSession.consecutive_failures + 1 ∧
        (3 ≤ failSession.consecutive_failures + 1 →
          r.state = SessionState.remediation ∧ r.grade = GradeLevel.C) ∧
        (failSession.consecutive_failures + 1 < 3 → r.state = SessionState.assessing)) ∧
    (FailureInv failSession ∧ c3_run = .ok c3_out ∧ FailureInv c3_out.2.1) := by
  constructor
  · exact ⟨rfl, by decide, by decide, by decide,
      c3_failure_escalation.1 dbSample genFallback [] [("s3", judgmentQ)] failSession "考拉"
        false judgmentQ rfl (by decide) (by decide) (by decide)⟩
  · refine ⟨⟨by decide, fun _ => by decide⟩, by rfl, ?_⟩
    exact c3_failure_escalation.2 dbSample genFallback [] [("s3", judgmentQ)] failSession
      "考拉" false c3_out.1 c3_out.2.1 c3_out.2.2.1 c3_out.2.2.2
      ⟨by decide, fun _ => by decide⟩ (by rfl)

/-! ## C4 — Assessing with no live question redirects to Learning -/

/-- C4: an Assessing-phase turn with no bound assessment live question —
including the case where the binding holds a question whose transfer flag
disagrees with the phase, which the lookup treats as absent — returns phase
Learning with `is_question = false`. -/
theorem c4_no_live_question (db : DB) (gen : Gen) (store : Store) (qmap : QMap)
    (session : Session) (msg : String) (sf : Bool)
    (hs : session.state = SessionState.assessing)
    (hq : get_current_question qmap session (some false) = none) :
    ∃ r s' qm st,
      process_message db gen store qmap session msg sf = .ok (r, s', qm, st) ∧
      r.state = SessionState.learning ∧ r.is_question = false := by
  have hd := dispatch_assessing db gen qmap
    { session with messages := session.messages ++ [("user", msg)] } msg
    (by rw [state_msgs]; exact hs)
  have ha := handle_assessment_no_question db gen qmap
    { session with messages := session.messages ++ [("user", msg)] } msg
    (by rw [get_current_question_msgs]; exact hq)
  exact ⟨_, _, _, _, process_message_ok db gen store qmap session msg sf _ _ _
    (hd.trans ha), rfl, rfl⟩

/-- C4 witness: the live-question binding holds a transfer-flagged question
while the phase expects a non-transfer one, so the lookup yields none and
the turn redirects to Learning. -/
theorem c4_witness :
    assessSession.state = SessionState.assessing ∧
    get_current_question [("s4", transferQ)] assessSession (some false) = none ∧
    (∃ r s' qm st,
      process_message dbSample genFallback [] [("s4", transferQ)] assessSession "请评分" false =
        .ok (r, s', qm, st) ∧
      r.state = SessionState.learning ∧ r.is_question = false) :=
  ⟨rfl, by decide,
    c4_no_live_question dbSample genFallback [] [("s4", transferQ)] assessSession "请评分"
      false rfl (by decide)⟩

/-! ## C8 — persistence failure never affects the returned result -/

/-- C8: the turn outcome — error or result, final session and live-question
map — is identical whether or not the session-persistence write raises; only
the store component differs.  Persistence failure is swallowed at the
dispatcher boundary and the handler result is still returned. -/
theorem c8_persistence_failure_swallowed (db : DB) (gen : Gen) (store : Store)
    (qmap : QMap) (session : Session) (msg : String) :
    (process_message db gen store qmap session msg true).map
        (fun o => (o.1, o.2.1, o.2.2.1)) =
      (process_message db gen store qmap session msg false).map
        (fun o => (o.1, o.2.1, o.2.2.1)) := by
  cases hd : dispatch db gen qmap
      { session with messages := session.messages ++ [("user", msg)] } msg with
  | error e =>
    rw [process_message_error db gen store qmap session msg true e hd,
      process_message_error db gen store qmap session msg false e hd]
  | ok t =>
    obtain ⟨r0, s0, qm0⟩ := t
    rw [process_message_ok db gen store qmap session msg true r0 s0 qm0 hd,
      process_message_ok db gen store qmap session msg false r0 s0 qm0 hd]
    rfl

/-! ## C7 — when the failure counter is cleared -/

/-- C7 counterexample: the claim says the counter is 0 at the end of every
turn entering Remediation; on the code the turn that transitions into
Remediation ends with the counter at 3 (the reset happens on the NEXT turn,
inside the Remediation handler). -/
theorem c7_counterexample :
    failSession.consecutive_failures = 2 ∧
    (evaluate_answer judgmentQ "考拉" genFallback).is_correct = false ∧
    turn_state (process_message dbSample genFallback [] [("s3", judgmentQ)] failSession
      "考拉" false) = some SessionState.remediation ∧
    post_failures (process_message dbSample genFallback [] [("s3", judgmentQ)] failSession
      "考拉" false) = some 3 :=
  ⟨rfl, by decide, by decide, by decide⟩

/-- C7 (amended): the counter is reset to 0 at the end of (i) every
correct-graded Assessing answer turn and (ii) every turn processed in the
Remediation phase; (iii) the turn that transitions into Remediation leaves
the counter at 3 — it is cleared on the next turn, not on entry. -/
theorem c7_failure_reset :
    (∀ (db : DB) (gen : Gen) (store : Store) (qmap : QMap) (session : Session)
        (msg : String) (sf : Bool) (q : Question),
        session.state = SessionState.assessing →
        get_current_question qmap session (some false) = some q →
        wants_hint msg = false →
        (evaluate_answer q msg gen).is_correct = true →
        ∃ r s' qm st,
          process_message db gen store qmap session msg sf = .ok (r, s', qm, st) ∧
          s'.consecutive_failures = 0) ∧
    (∀ (db : DB) (gen : Gen) (store : Store) (qmap : QMap) (session : Session)
        (msg : String) (sf : Bool),
        session.state = SessionState.remediation →
        ∃ r s' qm st,
          process_message db gen store qmap session msg sf = .ok (r, s', qm, st) ∧
          s'.consecutive_failures = 0) ∧
    (∀ (db : DB) (gen : Gen) (store : Store) (qmap : QMap) (session : Session)
        (msg : String) (sf : Bool) (q : Question),
        session.state = SessionState.assessing →
        get_current_question qmap session (some false) = some q →
        wants_hint msg = false →
        (evaluate_answer q msg gen).is_correct = false →
        session.consecutive_failures = 2 →
        ∃ r s' qm st,
          process_message db gen store qmap session msg sf = .ok (r, s', qm, st) ∧
          r.state = SessionState.remediation ∧ s'.consecutive_failures = 3) := by
  refine ⟨?_, ?_, ?_⟩
  · intro db gen store qmap session msg sf q hs hq hh hic
    have hd := dispatch_assessing db gen qmap
      { session with messages := session.messages ++ [("user", msg)] } msg
      (by rw [state_msgs]; exact hs)
    by_cases hgr : (evaluate_answer q msg gen).grade = GradeLevel.A
    · have ha := handle_assessment_correct_A db gen qmap
        { session with messages := session.messages ++ [("user", msg)] } msg q
        (by rw [get_current_question_msgs]; exact hq) hh hic hgr
      cases hpool : transfer_pool db session with
      | nil =>
        rw [start_transfer_test_empty _ _ _ _ _ ?he] at ha
        case he => exact hpool
        exact ⟨_, _, _, _, process_message_ok db gen store qmap session msg sf _ _ _
          (hd.trans ha), rfl⟩
      | cons q0 rest =>
        rw [start_transfer_test_nonempty _ _ _ _ _ q0 rest ?hc] at ha
        case hc => exact hpool
        exact ⟨_, _, _, _, process_message_ok db gen store qmap session msg sf _ _ _
          (hd.trans ha), rfl⟩
    · have ha := handle_assessment_correct_notA db gen qmap
        { session with messages := session.messages ++ [("user", msg)] } msg q
        (by rw [get_current_question_msgs]; exact hq) hh hic hgr
      exact ⟨_, _, _, _, process_message_ok db gen store qmap session msg sf _ _ _
        (hd.trans ha), rfl⟩
  · intro db gen store qmap session msg sf hs
    have hd := dispatch_remediation db gen qmap
      { session with messages := session.messages ++ [("user", msg)] } msg
      (by rw [state_msgs]; exact hs)
    exact ⟨_, _, _, _, process_message_ok db gen store qmap session msg sf _ _ _ hd, rfl⟩
  · intro db gen store qmap session msg sf q hs hq hh hic hpre
    have hd := dispatch_assessing db gen qmap
      { session with messages := session.messages ++ [("user", msg)] } msg
      (by rw [state_msgs]; exact hs)
    have ha := handle_assessment_incorrect db gen qmap
      { session with messages := session.messages ++ [("user", msg)] } msg q
      (by rw [get_current_question_msgs]; exact hq) hh hic
    simp only [failures_msgs] at ha
    rw [if_pos (show 3 ≤ session.consecutive_failures + 1 by omega)] at ha
    exact ⟨_, _, _, _, process_message_ok db gen store qmap session msg sf _ _ _
      (hd.trans ha), rfl, (by omega : session.consecutive_failures + 1 = 3)⟩

/-- C7 witness: the three parts instantiated — a correct fallback-graded
answer turn, a Remediation-phase turn, and the concrete counter-2 failing
turn that enters Remediation at counter 3. -/
theorem c7_witness :
    (assessSession.state = SessionState.assessing ∧
      get_current_question [("s4", judgmentQ)] assessSession (some false) = some judgmentQ ∧
      wants_hint "对" = false ∧
      (evaluate_answer judgmentQ "对" genFallback).is_correct = true ∧
      ∃ r s' qm st,
        process_message dbSample genFallback [] [("s4", judgmentQ)] assessSession "对" false =
          .ok (r, s', qm, st) ∧ s'.consecutive_failures = 0) ∧
    (remSession.state = SessionState.remediation ∧
      ∃ r s' qm st,
        process_message dbSample genFallback [] [] remSession "继续吧" false =
          .ok (r, s', qm, st) ∧ s'.consecutive_failures = 0) ∧
    (failSession.consecutive_failures = 2 ∧
      ∃ r s' qm st,
        process_message dbSample genFallback [] [("s3", judgmentQ)] failSession "考拉" false =
          .ok (r, s', qm, st) ∧
        r.state = SessionState.remediation ∧ s'.consecutive_failures = 3) :=
  ⟨⟨rfl, by decide, by decide, by decide,
      c7_failure_reset.1 dbSample genFallback [] [("s4", judgmentQ)] assessSession "对" false
        judgmentQ rfl (by decide) (by decide) (by decide)⟩,
    ⟨rfl, c7_failure_reset.2.1 dbSample genFallback [] [] remSession "继续吧" false rfl⟩,
    ⟨rfl, c7_failure_reset.2.2 dbSample genFallback [] [("s3", judgmentQ)] failSession "考拉"
        false judgmentQ rfl (by decide) (by decide) (by decide) rfl⟩⟩

/-- Binding a question for a session with a truthy id makes it the session's
live question. -/
theorem lookup_remember (qmap : QMap) (s : Session) (q : Question) (hid : s.id ≠ "") :
    List.lookup s.id (remember_current_question qmap s q) = some q := by
  unfold remember_current_question
  rw [if_neg hid]
  simp [List.lookup]

/-! ## C6 — grade-A Assessing answer starts the transfer test -/

/-- C6: an Assessing answer graded correct with grade A resets the failure
counter to 0 and either binds a transfer-flagged question from the transfer
pool and moves to TransferTest, or — when the pool is empty — moves directly
to Mastered with `mastered = true`. -/
theorem c6_grade_A_starts_transfer (db : DB) (gen : Gen) (store : Store) (qmap : QMap)
    (session : Session) (msg : String) (sf : Bool) (q : Question)
    (hs : session.state = SessionState.assessing)
    (hq : get_current_question qmap session (some false) = some q)
    (hh : wants_hint msg = false)
    (hic : (evaluate_answer q msg gen).is_correct = true)
    (hgr : (evaluate_answer q msg gen).grade = GradeLevel.A) :
    ∃ r s' qm st,
      process_message db gen store qmap session msg sf = .ok (r, s', qm, st) ∧
      s'.consecutive_failures = 0 ∧
      (transfer_pool db session = [] →
        r.state = SessionState.mastered ∧ r.mastered = true) ∧
      (∀ q0 rest, transfer_pool db session = q0 :: rest →
        r.state = SessionState.transfer_test ∧ r.is_question = true ∧
        ∃ q', r.question = some q' ∧ q' ∈ transfer_pool db session ∧
          q'.is_transfer = true ∧ List.lookup session.id qm = some q') := by
  have hid : session.id ≠ "" := get_current_question_id_ne qmap session (some false) q hq
  have hd := dispatch_assessing db gen qmap
    { session with messages := session.messages ++ [("user", msg)] } msg
    (by rw [state_msgs]; exact hs)
  have ha := handle_assessment_correct_A db gen qmap
    { session with messages := session.messages ++ [("user", msg)] } msg q
    (by rw [get_current_question_msgs]; exact hq) hh hic hgr
  cases hpool : transfer_pool db session with
  | nil =>
    rw [start_transfer_test_empty _ _ _ _ _ ?hempty] at ha
    case hempty => exact hpool
    refine ⟨_, _, _, _, process_message_ok db gen store qmap session msg sf _ _ _
      (hd.trans ha), rfl, fun _ => ⟨rfl, rfl⟩, ?_⟩
    intro q0 rest hcons
    exact List.noConfusion hcons
  | cons q0 rest =>
    rw [start_transfer_test_nonempty _ _ _ _ _ q0 rest ?hcons] at ha
    case hcons => exact hpool
    refine ⟨_, _, _, _, process_message_ok db gen store qmap session msg sf _ _ _
      (hd.trans ha), rfl, ?_, ?_⟩
    · intro hnil
      exact List.noConfusion hnil
    · intro q0' rest' _
      have hmem : (q0 :: rest).getD (gen.choiceIdx % (q0 :: rest).length) q0 ∈ q0 :: rest :=
        getD_mem _ _ _ (List.mem_cons_self q0 rest)
      refine ⟨rfl, rfl, (q0 :: rest).getD (gen.choiceIdx % (q0 :: rest).length) q0,
        rfl, hmem, transfer_pool_is_transfer db session _ (by rw [hpool]; exact hmem), ?_⟩
      exact lookup_remember qmap _ _ (by exact hid)

/-- C6 witness: a grade-A structured grading on a judgment question, with
the sample store holding one transfer question for the topic. -/
theorem c6_witness :
    assessSession.state = SessionState.assessing ∧
    get_current_question [("s4", judgmentQ)] assessSession (some false) = some judgmentQ ∧
    wants_hint "我的答复" = false ∧
    (evaluate_answer judgmentQ "我的答复" genParsedA).is_correct = true ∧
    (evaluate_answer judgmentQ "我的答复" genParsedA).grade = GradeLevel.A ∧
    (∃ r s' qm st,
      process_message dbSample genParsedA [] [("s4", judgmentQ)] assessSession "我的答复"
        false = .ok (r, s', qm, st) ∧
      s'.consecutive_failures = 0 ∧
      (transfer_pool dbSample assessSession = [] →
        r.state = SessionState.mastered ∧ r.mastered = true) ∧
      (∀ q0 rest, transfer_pool dbSample assessSession = q0 :: rest →
        r.state = SessionState.transfer_test ∧ r.is_question = true ∧
        ∃ q', r.question = some q' ∧ q' ∈ transfer_pool dbSample assessSession ∧
          q'.is_transfer = true ∧ List.lookup assessSession.id qm = some q')) :=
  ⟨rfl, by decide, by decide, by decide, by decide,
    c6_grade_A_starts_transfer dbSample genParsedA [] [("s4", judgmentQ)] assessSession
      "我的答复" false judgmentQ rfl (by decide) (by decide) (by decide) (by decide)⟩

/-! ## C5 — hint requests change nothing -/

theorem hint_response_congr (g1 g2 : Gen) (h : g1.hintsText = g2.hintsText) :
    hint_response g1 = hint_response g2 := by
  unfold hint_response
  rw [h]

theorem hint_session_congr (g1 g2 : Gen) (session : Session) (msg : String)
    (h : g1.hintsText = g2.hintsText) :
    hint_session g1 session msg = hint_session g2 session msg := by
  unfold hint_session
  rw [hint_response_congr g1 g2 h]

theorem hint_result_congr (g1 g2 : Gen) (session : Session) (q : Question)
    (h : g1.hintsText = g2.hintsText) :
    hint_result g1 session q = hint_result g2 session q := by
  unfold hint_result
  rw [hint_response_congr g1 g2 h]

/-- A hint turn in Assessing or TransferTest with a live question bound of
the matching kind: the turn returns the hint result, the live-question map
is untouched, and the session only gains the two log entries. -/
theorem hint_turn (db : DB) (gen : Gen) (store : Store) (qmap : QMap) (session : Session)
    (msg : String) (sf : Bool) (q : Question)
    (hs : session.state = SessionState.assessing ∨
      session.state = SessionState.transfer_test)
    (hh : wants_hint msg = true)
    (hq : get_current_question qmap session
        (some (session.state == SessionState.transfer_test)) = some q) :
    process_message db gen store qmap session msg sf =
      .ok (hint_result gen session q, hint_session gen session msg, qmap,
        if sf then store else update_session store (hint_session gen session msg)) := by
  rcases hs with h | h
  · have hq' : get_current_question qmap session (some false) = some q := by
      rw [h] at hq
      exact hq
    have hd := dispatch_assessing db gen qmap
      { session with messages := session.messages ++ [("user", msg)] } msg
      (by rw [state_msgs]; exact h)
    have ha := handle_assessment_hint db gen qmap
      { session with messages := session.messages ++ [("user", msg)] } msg q
      (by rw [get_current_question_msgs]; exact hq') hh
    rw [process_message_ok db gen store qmap session msg sf _ _ _ (hd.trans ha)]
    unfold hint_result hint_session hint_response
    rw [h]
  · have hq' : get_current_question qmap session (some true) = some q := by
      rw [h] at hq
      exact hq
    have hd := dispatch_transfer db gen qmap
      { session with messages := session.messages ++ [("user", msg)] } msg
      (by rw [state_msgs]; exact h)
    have ha := handle_transfer_hint db gen qmap
      { session with messages := session.messages ++ [("user", msg)] } msg q
      (by rw [get_current_question_msgs]; exact hq') hh
    rw [process_message_ok db gen store qmap session msg sf _ _ _ (hd.trans ha)]
    unfold hint_result hint_session hint_response
    rw [h]

/-- Any number of consecutive hint turns leaves the live-question map, the
phase and the grade unchanged. -/
theorem hint_turns_aux (db : DB) (turns : List (String × Gen)) :
    ∀ (store : Store) (qmap : QMap) (session : Session) (q : Question),
      (session.state = SessionState.assessing ∨
        session.state = SessionState.transfer_test) →
      get_current_question qmap session
        (some (session.state == SessionState.transfer_test)) = some q →
      (∀ p ∈ turns, wants_hint p.1 = true) →
      ∃ s' st', runTurns db turns store qmap session = .ok (s', qmap, st') ∧
        s'.state = session.state ∧ s'.current_grade = session.current_grade ∧
        s'.id = session.id := by
  induction turns with
  | nil =>
    intro store qmap session q hs hq hall
    exact ⟨session, store, rfl, rfl, rfl, rfl⟩
  | cons p rest ih =>
    intro store qmap session q hs hq hall
    obtain ⟨msg, gen⟩ := p
    have h1 := hint_turn db gen store qmap session msg false q hs
      (hall (msg, gen) (List.mem_cons_self _ _)) hq
    obtain ⟨s', st', hrun, h1s, h1g, h1id⟩ :=
      ih (update_session store (hint_session gen session msg)) qmap
        (hint_session gen session msg) q (by exact hs) (by exact hq)
        (fun p hp => hall p (List.mem_cons_of_mem _ hp))
    refine ⟨s', st', ?_, by exact h1s, by exact h1g, by exact h1id⟩
    show runTurns db ((msg, gen) :: rest) store qmap session = .ok (s', qmap, st')
    unfold runTurns
    rw [h1]
    exact hrun

/-- C5 counterexample: the claim quantifies over EVERY hint-intent turn in
Assessing/TransferTest, but with no live question bound a hint turn still
redirects the phase to Learning — the hypothesis that a live question is
bound is necessary. -/
theorem c5_counterexample :
    assessSession.state = SessionState.assessing ∧
    wants_hint "提示" = true ∧
    get_current_question [] assessSession (some false) = none ∧
    turn_state (process_message dbSample genFallback [] [] assessSession "提示" false) =
      some SessionState.learning :=
  ⟨rfl, by decide, by decide, by decide⟩

/-- C5 (amended): for every Assessing/TransferTest turn whose message
matches the hint intent AND whose live question of the matching kind is
bound: (i) the turn keeps phase, grade and live question unchanged; (ii) the
Grading Interpreter is never invoked — the outcome is identical for any two
oracles agreeing on the hint text, whatever their grading components; (iii)
phase, grade and live-question map are unchanged across any number of
consecutive hint turns. -/
theorem c5_hint_requests :
    (∀ (db : DB) (gen : Gen) (store : Store) (qmap : QMap) (session : Session)
        (msg : String) (sf : Bool) (q : Question),
        (session.state = SessionState.assessing ∨
          session.state = SessionState.transfer_test) →
        wants_hint msg = true →
        get_current_question qmap session
          (some (session.state == SessionState.transfer_test)) = some q →
        ∃ r s' st,
          process_message db gen store qmap session msg sf = .ok (r, s', qmap, st) ∧
          r.state = session.state ∧ r.grade = session.current_grade ∧
          r.question = some q ∧ s'.state = session.state ∧
          s'.current_grade = session.current_grade ∧
          s'.consecutive_failures = session.consecutive_failures ∧
          s'.id = session.id) ∧
    (∀ (db : DB) (gen1 gen2 : Gen) (store : Store) (qmap : QMap) (session : Session)
        (msg : String) (sf : Bool) (q : Question),
        (session.state = SessionState.assessing ∨
          session.state = SessionState.transfer_test) →
        wants_hint msg = true →
        get_current_question qmap session
          (some (session.state == SessionState.transfer_test)) = some q →
        gen1.hintsText = gen2.hintsText →
        process_message db gen1 store qmap session msg sf =
          process_message db gen2 store qmap session msg sf) ∧
    (∀ (db : DB) (turns : List (String × Gen)) (store : Store) (qmap : QMap)
        (session : Session) (q : Question),
        (session.state = SessionState.assessing ∨
          session.state = SessionState.transfer_test) →
        get_current_question qmap session
          (some (session.state == SessionState.transfer_test)) = some q →
        (∀ p ∈ turns, wants_hint p.1 = true) →
        ∃ s' st', runTurns db turns store qmap session = .ok (s', qmap, st') ∧
          s'.state = session.state ∧ s'.current_grade = session.current_grade ∧
          s'.id = session.id) := by
  refine ⟨?_, ?_, ?_⟩
  · intro db gen store qmap session msg sf q hs hh hq
    exact ⟨hint_result gen session q, hint_session gen session msg, _,
      hint_turn db gen store qmap session msg sf q hs hh hq,
      rfl, rfl, rfl, rfl, rfl, rfl, rfl⟩
  · intro db gen1 gen2 store qmap session msg sf q hs hh hq h12
    rw [hint_turn db gen1 store qmap session msg sf q hs hh hq,
      hint_turn db gen2 store qmap session msg sf q hs hh hq,
      hint_result_congr gen1 gen2 session q h12,
      hint_session_congr gen1 gen2 session msg h12]
  · intro db turns store qmap session q hs hq hall
    exact hint_turns_aux db turns store qmap session q hs hq hall

/-- C5 witness: a hint turn on a bound transfer question; the same turn
under a different grading oracle sharing the hint text; and two consecutive
hint turns. -/
theorem c5_witness :
    ((transferSession.state = SessionState.assessing ∨
        transferSession.state = SessionState.transfer_test) ∧
      wants_hint "给我提示" = true ∧
      get_current_question [("s5", transferQ)] transferSession
        (some (transferSession.state == SessionState.transfer_test)) = some transferQ ∧
      (∃ r s' st,
        process_message dbSample genFallback [] [("s5", transferQ)] transferSession
          "给我提示" false = .ok (r, s', [("s5", transferQ)], st) ∧
        r.state = transferSession.state ∧ r.grade = transferSession.current_grade ∧
        r.question = some transferQ ∧ s'.state = transferSession.state ∧
        s'.current_grade = transferSession.current_grade ∧
        s'.consecutive_failures = transferSession.consecutive_failures ∧
        s'.id = transferSession.id)) ∧
    (genFallback.hintsText = genFallbackAlt.hintsText ∧
      process_message dbSample genFallback [] [("s5", transferQ)] transferSession
        "给我提示" false =
      process_message dbSample genFallbackAlt [] [("s5", transferQ)] transferSession
        "给我提示" false) ∧
    (([("给我提示", genFallback), ("hint", genParsedA)] : List (String × Gen)).all
        (fun p => wants_hint p.1) = true ∧
      ∃ s' st',
        runTurns dbSample [("给我提示", genFallback), ("hint", genParsedA)] []
          [("s5", transferQ)] transferSession = .ok (s', [("s5", transferQ)], st') ∧
        s'.state = transferSession.state ∧
        s'.current_grade = transferSession.current_grade ∧
        s'.id = transferSession.id) :=
  ⟨⟨Or.inr rfl, by decide, by decide,
      c5_hint_requests.1 dbSample genFallback [] [("s5", transferQ)] transferSession
        "给我提示" false transferQ (Or.inr rfl) (by decide) (by decide)⟩,
    ⟨rfl,
      c5_hint_requests.2.1 dbSample genFallback genFallbackAlt [] [("s5", transferQ)]
        transferSession "给我提示" false transferQ (Or.inr rfl) (by decide) (by decide) rfl⟩,
    ⟨by decide,
      c5_hint_requests.2.2 dbSample [("给我提示", genFallback), ("hint", genParsedA)] []
        [("s5", transferQ)] transferSession transferQ (Or.inr rfl) (by decide) (by decide)⟩⟩
